import Mathlib

/-!
Shallow embedding of the clixon backend-startup, file-utility, restconf-error
and proto-client code, together with theorems settling the spec claims.

File contents are modelled as lists of bytes (`List Nat`); a database or file
that is absent is `none`.  OS-level faults (failing `read`/`write`/`open`
calls, failing datastore primitives) are injected through explicit oracle
parameters, so every behaviour of the C error paths is a concrete input.
-/

namespace Clixon

/-- A file's (or database's) content as a byte list; `none` = absent/unopenable. -/
abbrev FileContent := Option (List Nat)

/-! ### clicon_file_copy (lib/src/clixon_file.c) -/

/-- Split a byte list into the successive 512-byte chunks that the
`read(inF, line, sizeof(line))` loop of `clicon_file_copy` yields
(`char line[512]`). -/
def toChunks (l : List Nat) : List (List Nat) :=
  if h : l = [] then []
  else l.take 512 :: toChunks (l.drop 512)
termination_by l.length
decreasing_by
  simp only [List.length_drop]
  have hl : 0 < l.length := List.length_pos.mpr h
  omega

/-- The `while((bytes = read(inF, line, sizeof(line))) > 0) write(ouF, ...)`
loop of `clicon_file_copy`.  `chunks` are the chunks not yet read, `written`
the bytes already written into the (truncated) target, `i` the index of the
current chunk.  `rfail`/`wfail` inject the chunk index at which `read`
resp. `write` first fails.  A failing `read` returns `-1 ≤ 0`, so the loop
simply exits and the function continues to `retval = 0`; a failing `write`
jumps to the `error:` label with `retval = -1`.  In both cases the bytes
already written stay in the target file. -/
def copy_loop (chunks : List (List Nat)) (written : List Nat) (i : Nat)
    (rfail wfail : Option Nat) : Int × List Nat :=
  match chunks with
  | [] => (0, written)
  | ch :: rest =>
      if rfail = some i then (0, written)
      else if wfail = some i then (-1, written)
      else copy_loop rest (written ++ ch) (i + 1) rfail wfail

/-- `clicon_file_copy(src, target)`: `stat`/`open` the source (both failures
collapse to `src = none`: return -1 leaving the target untouched), open the
target with `O_WRONLY|O_CREAT|O_TRUNC` (failure: `tgtOpenOk = false`, return
-1 leaving the target untouched; success truncates the target to empty), then
run the 512-byte read/write loop.  Returns `(retval, target content)`. -/
def clicon_file_copy (src tgt : FileContent) (tgtOpenOk : Bool)
    (rfail wfail : Option Nat) : Int × FileContent :=
  match src with
  | none => (-1, tgt)
  | some c =>
      if tgtOpenOk then
        let r := copy_loop (toChunks c) [] 0 rfail wfail
        (r.1, some r.2)
      else (-1, tgt)

theorem toChunks_flatten_aux : ∀ (n : Nat) (l : List Nat), l.length ≤ n →
    (toChunks l).flatten = l := by
  intro n
  induction n with
  | zero =>
      intro l hl
      have hnil : l = [] := by cases l <;> simp_all
      simp [hnil, toChunks]
  | succ n ih =>
      intro l hl
      rw [toChunks]
      split
      · simp [*]
      · rename_i h
        have hd : (l.drop 512).length ≤ n := by
          have hp : 0 < l.length := List.length_pos.mpr h
          simp only [List.length_drop]
          omega
        simp only [List.flatten_cons]
        rw [ih (l.drop 512) hd]
        exact List.take_append_drop 512 l

theorem toChunks_flatten (l : List Nat) : (toChunks l).flatten = l :=
  toChunks_flatten_aux l.length l le_rfl

theorem flatten_take_toChunks_aux : ∀ (n : Nat) (l : List Nat) (j : Nat), l.length ≤ n →
    ((toChunks l).take j).flatten = l.take (512 * j) := by
  intro n
  induction n with
  | zero =>
      intro l j hl
      have hnil : l = [] := by cases l <;> simp_all
      simp [hnil, toChunks]
  | succ n ih =>
      intro l j hl
      rw [toChunks]
      split
      · simp [*]
      · rename_i h
        have hd : (l.drop 512).length ≤ n := by
          have hp : 0 < l.length := List.length_pos.mpr h
          simp only [List.length_drop]
          omega
        match j with
        | 0 => simp
        | j + 1 =>
            simp only [List.take_succ_cons, List.flatten_cons]
            rw [ih (l.drop 512) j hd]
            rw [← List.take_add]
            congr 1
            ring

theorem flatten_take_toChunks (l : List Nat) (j : Nat) :
    ((toChunks l).take j).flatten = l.take (512 * j) :=
  flatten_take_toChunks_aux l.length l j le_rfl

/-- The copy loop leaves in the target exactly the chunks written before the
first fault (or all of them): the result is `written` extended by some number
of leading chunks. -/
theorem copy_loop_take (chunks : List (List Nat)) :
    ∀ (written : List Nat) (i : Nat) (rfail wfail : Option Nat),
    ∃ j, (copy_loop chunks written i rfail wfail).2 = written ++ (chunks.take j).flatten := by
  induction chunks with
  | nil => intro written i rfail wfail; exact ⟨0, by simp [copy_loop]⟩
  | cons ch rest ih =>
      intro written i rfail wfail
      unfold copy_loop
      by_cases hr : rfail = some i
      · exact ⟨0, by simp [hr]⟩
      · by_cases hw : wfail = some i
        · exact ⟨0, by simp [hr, hw]⟩
        · obtain ⟨j, hj⟩ := ih (written ++ ch) (i + 1) rfail wfail
          refine ⟨j + 1, ?_⟩
          simp [hr, hw, hj]

/-- The copy loop's return value is 0 (success, possibly after a silent read
error) or -1 (write error). -/
theorem copy_loop_retval (chunks : List (List Nat)) :
    ∀ (written : List Nat) (i : Nat) (rfail wfail : Option Nat),
    (copy_loop chunks written i rfail wfail).1 = 0 ∨
    (copy_loop chunks written i rfail wfail).1 = -1 := by
  induction chunks with
  | nil => intro written i rfail wfail; left; simp [copy_loop]
  | cons ch rest ih =>
      intro written i rfail wfail
      unfold copy_loop
      by_cases hr : rfail = some i
      · left; simp [hr]
      · by_cases hw : wfail = some i
        · right; simp [hr, hw]
        · simpa [hr, hw] using ih (written ++ ch) (i + 1) rfail wfail

/-- Without injected faults the loop copies everything and succeeds. -/
theorem copy_loop_nofault (chunks : List (List Nat)) :
    ∀ (written : List Nat) (i : Nat),
    copy_loop chunks written i none none = (0, written ++ chunks.flatten) := by
  induction chunks with
  | nil => intro written i; simp [copy_loop]
  | cons ch rest ih =>
      intro written i
      unfold copy_loop
      simp [ih (written ++ ch) (i + 1)]

/-- On a fault-free run `clicon_file_copy` fully copies the source. -/
theorem clicon_file_copy_nofault (c : List Nat) (tgt : FileContent) :
    clicon_file_copy (some c) tgt true none none = (0, some c) := by
  simp [clicon_file_copy, copy_loop_nofault, toChunks_flatten]

/-- C1, counterexample: the claim says that on any failure (here: the very
first `write` to the target fails) the target's content is unchanged.  In the
code the target was already truncated by `open(..., O_TRUNC)`, so after the
failed write the former 1-byte target `[9]` has become the empty file: the
call fails (retval -1) yet the target is changed. -/
theorem clicon_file_copy_c1_cex :
    (clicon_file_copy (some [1]) (some [9]) true none (some 0)).1 = -1 ∧
    (clicon_file_copy (some [1]) (some [9]) true none (some 0)).2 ≠ some [9] := by
  have h1 : toChunks [1] = [[1]] := by
    rw [toChunks]
    simp
    rw [toChunks]
    simp
  constructor <;> simp [clicon_file_copy, h1, copy_loop]

/-- C1, amended: `clicon_file_copy` is not atomic.  On success the target's
content equals the source's; if the source is unreadable or the target cannot
be opened the target is unchanged; but once the target has been opened
(truncated) the target ends up holding some 512-byte-chunk-aligned prefix of
the source — a write error partway through returns -1 with that prefix in
place (not the original content), and a read error partway through even
returns 0 (success) with such a prefix. -/
theorem clicon_file_copy_amended (src tgt : FileContent) (tgtOpenOk : Bool)
    (rfail wfail : Option Nat) :
    (src = none → clicon_file_copy src tgt tgtOpenOk rfail wfail = (-1, tgt)) ∧
    (tgtOpenOk = false → clicon_file_copy src tgt tgtOpenOk rfail wfail = (-1, tgt)) ∧
    (∀ c, src = some c → tgtOpenOk = true →
      (rfail = none → wfail = none →
        clicon_file_copy src tgt tgtOpenOk rfail wfail = (0, some c)) ∧
      ∃ k r, (r = 0 ∨ r = -1) ∧
        clicon_file_copy src tgt tgtOpenOk rfail wfail = (r, some (c.take k))) := by
  refine ⟨?_, ?_, ?_⟩
  · intro h; subst h; rfl
  · intro h; subst h
    cases src with
    | none => rfl
    | some c => simp [clicon_file_copy]
  · intro c hsrc hopen
    subst hsrc; subst hopen
    have hrun : clicon_file_copy (some c) tgt true rfail wfail
        = ((copy_loop (toChunks c) [] 0 rfail wfail).1,
           some (copy_loop (toChunks c) [] 0 rfail wfail).2) := by
      simp [clicon_file_copy]
    constructor
    · intro hr hw; subst hr; subst hw
      exact clicon_file_copy_nofault c tgt
    · obtain ⟨j, hj⟩ := copy_loop_take (toChunks c) [] 0 rfail wfail
      have hk : (copy_loop (toChunks c) [] 0 rfail wfail).2 = c.take (512 * j) := by
        rw [hj, List.nil_append, flatten_take_toChunks]
      rcases copy_loop_retval (toChunks c) [] 0 rfail wfail with h0 | h1
      · exact ⟨512 * j, 0, Or.inl rfl, by rw [hrun, h0, hk]⟩
      · exact ⟨512 * j, -1, Or.inr rfl, by rw [hrun, h1, hk]⟩

/-- Witness for `clicon_file_copy_amended` at a concrete input. -/
theorem clicon_file_copy_amended_witness :
    clicon_file_copy (some [1, 2]) (some [9]) true none none = (0, some [1, 2]) :=
  ((clicon_file_copy_amended (some [1, 2]) (some [9]) true none none).2.2
    [1, 2] rfl rfl).1 rfl rfl

/-! ### Datastore state and spec-modelled primitives (apps/backend/backend_startup.c) -/

/-- The named databases touched by the startup orchestrator. -/
structure Dbs where
  running : Option (List Nat)
  tmp : Option (List Nat)
  failsafe : Option (List Nat)
deriving DecidableEq

/-- Modelled from the spec: `xmldb_copy` (datastore library, not under src/),
§4.1 `copy(src, dst)` — atomic replacement of `dst` with the content of
`src`; on failure `dst` is unchanged.  A missing source is a failure; `ok`
injects an I/O fault.  Returns (retval, new dst content). -/
def xmldb_copy (ok : Bool) (src dst : Option (List Nat)) : Int × Option (List Nat) :=
  match src with
  | none => (-1, dst)
  | some c => if ok then (0, some c) else (-1, dst)

/-- Modelled from the spec: `candidate_commit` (backend_commit.c, not under
src/), §4.5 transaction engine committing the db with content `src` into
`running`: on success (1) running becomes the source content; on validation
failure (0) or error (-1) running is unchanged (invariant I4).  `ret` is the
commit outcome oracle. -/
def candidate_commit (ret : Int) (src running : Option (List Nat)) :
    Int × Option (List Nat) :=
  match src with
  | none => (-1, running)
  | some c => if ret = 1 then (1, some c) else (ret, running)

/-- Datastore operations performed by `startup_failsafe`, for frame conditions. -/
inductive DsOp where
  | copy (src dst : String)
  | reset (db : String)
  | commit (src dst : String)
deriving DecidableEq

/-- Oracle for the fallible calls inside `startup_failsafe`. -/
structure FsEnv where
  existsErr : Bool
  copyBackupOk : Bool
  resetOk : Bool
  commitRet : Int
  copyRestoreOk : Bool
deriving DecidableEq

/-- `startup_failsafe` (backend_startup.c): if the `failsafe` db does not
exist, fail; otherwise back up `running` to `tmp`, reset `running` to empty,
and `candidate_commit` failsafe into running; if that commit does not return
1, restore `running` from `tmp` and fail.  Returns
(retval, final databases, datastore ops performed). -/
def startup_failsafe (env : FsEnv) (s : Dbs) : Int × Dbs × List DsOp :=
  if env.existsErr then (-1, s, [])
  else if s.failsafe = none then (-1, s, [])
  else
    let r1 := xmldb_copy env.copyBackupOk s.running s.tmp
    let s1 : Dbs := { s with tmp := r1.2 }
    if r1.1 < 0 then (-1, s1, [DsOp.copy "running" "tmp"])
    else if env.resetOk = false then
      (-1, s1, [DsOp.copy "running" "tmp", DsOp.reset "running"])
    else
      let s2 : Dbs := { s1 with running := some [] }
      let r2 := candidate_commit env.commitRet s2.failsafe s2.running
      let s3 : Dbs := { s2 with running := r2.2 }
      let tr := [DsOp.copy "running" "tmp", DsOp.reset "running",
                 DsOp.commit "failsafe" "running"]
      if r2.1 ≠ 1 then
        let r3 := xmldb_copy env.copyRestoreOk s3.tmp s3.running
        (-1, { s3 with running := r3.2 }, tr ++ [DsOp.copy "tmp" "running"])
      else (0, s3, tr)

/-- C2: when the failsafe db exists and the commit of failsafe into running
succeeds, `startup_failsafe` returns 0 and running's content equals the
failsafe db's content. -/
theorem startup_failsafe_commit_ok (env : FsEnv) (s : Dbs) (fs r : List Nat)
    (h1 : env.existsErr = false) (h2 : s.failsafe = some fs)
    (h3 : s.running = some r) (h4 : env.copyBackupOk = true)
    (h5 : env.resetOk = true) (h6 : env.commitRet = 1) :
    (startup_failsafe env s).1 = 0 ∧
    (startup_failsafe env s).2.1.running = some fs ∧
    (startup_failsafe env s).2.1.running = s.failsafe := by
  simp [startup_failsafe, xmldb_copy, candidate_commit, h1, h2, h3, h4, h5, h6]

/-- Witness for `startup_failsafe_commit_ok`. -/
theorem startup_failsafe_commit_ok_witness :
    (startup_failsafe ⟨false, true, true, 1, true⟩
      ⟨some [7], none, some [3]⟩).1 = 0 ∧
    (startup_failsafe ⟨false, true, true, 1, true⟩
      ⟨some [7], none, some [3]⟩).2.1.running = some [3] ∧
    (startup_failsafe ⟨false, true, true, 1, true⟩
      ⟨some [7], none, some [3]⟩).2.1.running =
      (Dbs.mk (some [7]) none (some [3])).failsafe :=
  startup_failsafe_commit_ok ⟨false, true, true, 1, true⟩
    ⟨some [7], none, some [3]⟩ [3] [7] rfl rfl rfl rfl rfl rfl

/-- C3: when the failsafe db does not exist, `startup_failsafe` returns an
error (-1), the databases are untouched, and no datastore operation (no copy,
no reset, no commit) is performed. -/
theorem startup_failsafe_no_failsafe (env : FsEnv) (s : Dbs)
    (h1 : env.existsErr = false) (h2 : s.failsafe = none) :
    startup_failsafe env s = (-1, s, []) := by
  simp [startup_failsafe, h1, h2]

/-- Witness for `startup_failsafe_no_failsafe`. -/
theorem startup_failsafe_no_failsafe_witness :
    startup_failsafe ⟨false, true, true, 1, true⟩ ⟨some [7], some [5], none⟩ =
      (-1, ⟨some [7], some [5], none⟩, []) :=
  startup_failsafe_no_failsafe ⟨false, true, true, 1, true⟩
    ⟨some [7], some [5], none⟩ rfl rfl

/-- C4: when the commit of failsafe into running fails (validation failure or
error) and the restoring copy succeeds, `startup_failsafe` restores running
from the tmp backup — running's final content equals its original content —
and returns an error (-1). -/
theorem startup_failsafe_commit_fail (env : FsEnv) (s : Dbs) (fs r : List Nat)
    (h1 : env.existsErr = false) (h2 : s.failsafe = some fs)
    (h3 : s.running = some r) (h4 : env.copyBackupOk = true)
    (h5 : env.resetOk = true) (h6 : env.commitRet ≠ 1)
    (h7 : env.copyRestoreOk = true) :
    (startup_failsafe env s).1 = -1 ∧
    (startup_failsafe env s).2.1.running = some r ∧
    (startup_failsafe env s).2.1.running = s.running := by
  simp [startup_failsafe, xmldb_copy, candidate_commit, h1, h2, h3, h4, h5, h6, h7]

/-- Witness for `startup_failsafe_commit_fail` (commit returned 0 =
validation failed). -/
theorem startup_failsafe_commit_fail_witness :
    (startup_failsafe ⟨false, true, true, 0, true⟩
      ⟨some [7], none, some [3]⟩).1 = -1 ∧
    (startup_failsafe ⟨false, true, true, 0, true⟩
      ⟨some [7], none, some [3]⟩).2.1.running = some [7] ∧
    (startup_failsafe ⟨false, true, true, 0, true⟩
      ⟨some [7], none, some [3]⟩).2.1.running =
      (Dbs.mk (some [7]) none (some [3])).running :=
  startup_failsafe_commit_fail ⟨false, true, true, 0, true⟩
    ⟨some [7], none, some [3]⟩ [3] [7] rfl rfl rfl rfl rfl (by decide) rfl

/-! ### startup_mode_startup (apps/backend/backend_startup.c) -/

/-- Datastore operations attempted by `startup_mode_startup`. -/
inductive SuOp where
  | exists_chk
  | create
  | commit
deriving DecidableEq

/-- `startup_mode_startup` (backend_startup.c): reject the literal source db
name "running" with a fatal error (`clicon_err(OE_FATAL, ...)`) before any
datastore access; otherwise check existence, create the db empty if missing,
and run `startup_commit`.  Returns (retval, datastore ops attempted, whether
the fatal invalid-startup-db error was raised).  `startup_commit`'s outcome
(backend_commit.c, not under src/) is the oracle `commitRet`. -/
def startup_mode_startup (db : String) (dbExists : Bool)
    (createRet commitRet : Int) : Int × List SuOp × Bool :=
  if db = "running" then (-1, [], true)
  else
    let pre : List SuOp :=
      if dbExists then [SuOp.exists_chk] else [SuOp.exists_chk, SuOp.create]
    if dbExists = false ∧ createRet < 0 then (-1, pre, false)
    else if commitRet < 0 then (-1, pre ++ [SuOp.commit], false)
    else if commitRet = 0 then (0, pre ++ [SuOp.commit], false)
    else (1, pre ++ [SuOp.commit], false)

/-- C6: a source db named "running" is rejected with the fatal-class error
before any datastore operation is attempted; any other source name is never
rejected with that error. -/
theorem startup_mode_startup_rejects_running (db : String) (dbExists : Bool)
    (createRet commitRet : Int) :
    (db = "running" →
      startup_mode_startup db dbExists createRet commitRet = (-1, [], true)) ∧
    (db ≠ "running" →
      (startup_mode_startup db dbExists createRet commitRet).2.2 = false) := by
  constructor
  · intro h; simp [startup_mode_startup, h]
  · intro h
    simp only [startup_mode_startup, if_neg h]
    split
    · rfl
    · split
      · rfl
      · split <;> rfl

/-- Witness for `startup_mode_startup_rejects_running`: the rejection fires
for "running" and not for "startup". -/
theorem startup_mode_startup_rejects_running_witness :
    startup_mode_startup "running" true 0 1 = (-1, [], true) ∧
    (startup_mode_startup "startup" true 0 1).2.2 = false :=
  ⟨(startup_mode_startup_rejects_running "running" true 0 1).1 rfl,
   (startup_mode_startup_rejects_running "startup" true 0 1).2 (by decide)⟩

/-! ### startup_extraxml and db_merge (apps/backend/backend_startup.c) -/

/-- Events observable during `startup_extraxml`: the calls it makes, plus the
two kinds of plugin transaction callbacks (which it could in principle have
fired, and whose absence the claim asserts). -/
inductive XEv where
  | reset_tmp
  | plugin_reset
  | load_file
  | get_tmp
  | static_validate
  | get0_tmp
  | merge_put
  | plugin_validate
  | plugin_commit
  | delete_tmp
deriving DecidableEq

/-- Oracle for the fallible calls inside `startup_extraxml`. -/
structure XEnv where
  resetOk : Bool
  pluginOk : Bool
  pluginXml : List Nat
  fileLoad : Option (Int × List Nat)
  getOk : Bool
  valRet : Int
  valXml : Option (List Nat)
  get0Ok : Bool
  putRet : Int
  deleteOk : Bool

/-- `load_extraxml` (backend_startup.c): with no `-c FILE` return 1 at once;
otherwise open/parse the file and `xmldb_put` it into the db with `OP_MERGE`
(merge content abstracted as append).  `fileLoad = some (ret, xml)` gives the
put outcome and the parsed content.  Returns (retval, new db content, events). -/
def load_extraxml (fileLoad : Option (Int × List Nat)) (db : List Nat) :
    Int × List Nat × List XEv :=
  match fileLoad with
  | none => (1, db, [])
  | some (ret, xml) =>
      if ret = 1 then (1, db ++ xml, [XEv.load_file])
      else (ret, db, [XEv.load_file])

/-- `db_merge` (backend_startup.c): `xmldb_get0` the source db as XML, then
`xmldb_put` it into the target db with `OP_MERGE` and no commit (merge
content abstracted as append).  Returns (retval, new target content, events). -/
def db_merge (get0Ok : Bool) (putRet : Int) (db1 : List Nat)
    (db2 : Option (List Nat)) : Int × Option (List Nat) × List XEv :=
  if get0Ok = false then (-1, db2, [XEv.get0_tmp])
  else if putRet = 1 then (1, some (db2.getD [] ++ db1), [XEv.get0_tmp, XEv.merge_put])
  else (putRet, db2, [XEv.get0_tmp, XEv.merge_put])

/-- The `done:` section of `startup_extraxml`: every exit path deletes the
tmp db (`xmldb_delete`); a delete failure (other than ENOENT) overrides the
return value with -1. -/
def extraxml_done (deleteOk : Bool) (retval : Int) (s : Dbs) (tr : List XEv) :
    Int × Dbs × List XEv :=
  if deleteOk then (retval, { s with tmp := none }, tr ++ [XEv.delete_tmp])
  else (-1, s, tr ++ [XEv.delete_tmp])

/-- The part of `startup_extraxml` that follows the `load_extraxml` call:
`lr`, `lc`, `le` are the load's return value, the tmp db content after the
reset hooks and the load, and the load's events. -/
def startup_extraxml_rest (env : XEnv) (s2 : Dbs) (lr : Int) (lc : List Nat)
    (le : List XEv) : Int × Dbs × List XEv :=
  let s3 : Dbs := { s2 with tmp := some lc }
  let tr := [XEv.reset_tmp, XEv.plugin_reset] ++ le
  if lr < 0 then extraxml_done env.deleteOk (-1) s3 tr
  else if lr = 0 then extraxml_done env.deleteOk 0 s3 tr
  else if env.getOk = false then
    extraxml_done env.deleteOk (-1) s3 (tr ++ [XEv.get_tmp])
  else if lc = [] then extraxml_done env.deleteOk 1 s3 (tr ++ [XEv.get_tmp])
  else
    let trv := tr ++ [XEv.get_tmp, XEv.static_validate]
    if env.valRet < 0 then extraxml_done env.deleteOk (-1) s3 trv
    else if env.valRet = 0 then extraxml_done env.deleteOk 0 s3 trv
    else
      match env.valXml with
      | none => extraxml_done env.deleteOk 1 s3 trv
      | some v =>
          if v = [] then extraxml_done env.deleteOk 1 s3 trv
          else
            let m := db_merge env.get0Ok env.putRet lc s2.running
            let s4 : Dbs := { s3 with running := m.2.1 }
            if m.1 < 0 then extraxml_done env.deleteOk 0 s4 (trv ++ m.2.2)
            else if m.1 = 0 then extraxml_done env.deleteOk 0 s4 (trv ++ m.2.2)
            else extraxml_done env.deleteOk 1 s4 (trv ++ m.2.2)

/-- `startup_extraxml` (backend_startup.c): clear the tmp db, run the plugin
`reset` callbacks on it (their content: `pluginXml`), optionally merge the
`-c FILE` xml into tmp, and then — only if tmp is non-empty — run
`startup_validate` (backend_commit.c, not under src/; modelled from the spec
as the static validator only, event `static_validate`) and `db_merge` tmp
into running.  No plugin validate or commit callback appears on any path.
Returns (retval, final databases, events). -/
def startup_extraxml (env : XEnv) (s : Dbs) : Int × Dbs × List XEv :=
  if env.resetOk = false then extraxml_done env.deleteOk (-1) s [XEv.reset_tmp]
  else
    let s1 : Dbs := { s with tmp := some [] }
    if env.pluginOk = false then
      extraxml_done env.deleteOk (-1) s1 [XEv.reset_tmp, XEv.plugin_reset]
    else
      let s2 : Dbs := { s1 with tmp := some env.pluginXml }
      let l := load_extraxml env.fileLoad env.pluginXml
      startup_extraxml_rest env s2 l.1 l.2.1 l.2.2

theorem load_extraxml_events (fileLoad : Option (Int × List Nat)) (db : List Nat) :
    (load_extraxml fileLoad db).2.2 = [] ∨
    (load_extraxml fileLoad db).2.2 = [XEv.load_file] := by
  cases fileLoad with
  | none => left; rfl
  | some p =>
      right
      obtain ⟨ret, xml⟩ := p
      simp only [load_extraxml]
      split <;> rfl

/-- The `done:` section always just appends the tmp-delete event. -/
theorem extraxml_done_tr (d : Bool) (r : Int) (s : Dbs) (tr : List XEv) :
    (extraxml_done d r s tr).2.2 = tr ++ [XEv.delete_tmp] := by
  unfold extraxml_done
  split <;> rfl

theorem db_merge_events (g : Bool) (p : Int) (db1 : List Nat)
    (db2 : Option (List Nat)) :
    (db_merge g p db1 db2).2.2 = [XEv.get0_tmp] ∨
    (db_merge g p db1 db2).2.2 = [XEv.get0_tmp, XEv.merge_put] := by
  unfold db_merge
  split_ifs <;> simp

/-- No path of the post-load part of `startup_extraxml` fires a plugin
validate or commit callback. -/
theorem startup_extraxml_rest_no_tx (env : XEnv) (s2 : Dbs) (lr : Int)
    (lc : List Nat) (le : List XEv)
    (h1 : XEv.plugin_validate ∉ le) (h2 : XEv.plugin_commit ∉ le) :
    XEv.plugin_validate ∉ (startup_extraxml_rest env s2 lr lc le).2.2 ∧
    XEv.plugin_commit ∉ (startup_extraxml_rest env s2 lr lc le).2.2 := by
  have hev := db_merge_events env.get0Ok env.putRet lc s2.running
  rcases hd : db_merge env.get0Ok env.putRet lc s2.running with ⟨mr, md⟩
  obtain ⟨mdb, mev⟩ := md
  rw [hd] at hev
  unfold startup_extraxml_rest
  by_cases hA : lr < 0
  · simp [hA, extraxml_done_tr, h1, h2]
  · by_cases hB : lr = 0
    · simp [hA, hB, extraxml_done_tr, h1, h2]
    · by_cases hC : env.getOk = false
      · simp [hA, hB, hC, extraxml_done_tr, h1, h2]
      · by_cases hD : lc = []
        · simp [hA, hB, hC, hD, extraxml_done_tr, h1, h2]
        · rcases hx : env.valXml with _ | v
          · by_cases hE : env.valRet < 0
            · simp [hA, hB, hC, hD, hE, hx, extraxml_done_tr, h1, h2]
            · by_cases hF : env.valRet = 0
              · simp [hA, hB, hC, hD, hE, hF, hx, extraxml_done_tr, h1, h2]
              · simp [hA, hB, hC, hD, hE, hF, hx, extraxml_done_tr, h1, h2]
          · by_cases hE : env.valRet < 0
            · simp [hA, hB, hC, hD, hE, hx, extraxml_done_tr, h1, h2]
            · by_cases hF : env.valRet = 0
              · simp [hA, hB, hC, hD, hE, hF, hx, extraxml_done_tr, h1, h2]
              · by_cases hV : v = []
                · simp [hA, hB, hC, hD, hE, hF, hV, hx, extraxml_done_tr, h1, h2]
                · rcases hev with hev | hev <;> subst hev <;>
                    by_cases hm1 : mr < 0 <;> by_cases hm2 : mr = 0 <;>
                      simp [hA, hB, hC, hD, hE, hF, hV, hx, hd, hm1, hm2,
                        extraxml_done_tr, h1, h2]

/-- C5: on every path of `startup_extraxml` no plugin validate or commit
callback is invoked; when tmp is empty after the reset hooks and the optional
`-c` file load, validation and the merge are skipped entirely and 1 (OK) is
returned with running untouched; when tmp is non-empty (and the validation
and merge succeed), the static validator runs on tmp and tmp is then merged
into running by a plain datastore merge put. -/
theorem startup_extraxml_merge_spec (env : XEnv) (s : Dbs) :
    (XEv.plugin_validate ∉ (startup_extraxml env s).2.2 ∧
     XEv.plugin_commit ∉ (startup_extraxml env s).2.2) ∧
    (env.resetOk = true → env.pluginOk = true → env.getOk = true →
     env.deleteOk = true →
     (load_extraxml env.fileLoad env.pluginXml).1 = 1 →
     (load_extraxml env.fileLoad env.pluginXml).2.1 = [] →
       (startup_extraxml env s).1 = 1 ∧
       XEv.static_validate ∉ (startup_extraxml env s).2.2 ∧
       XEv.merge_put ∉ (startup_extraxml env s).2.2 ∧
       (startup_extraxml env s).2.1.running = s.running) ∧
    (env.resetOk = true → env.pluginOk = true → env.getOk = true →
     env.deleteOk = true →
     (load_extraxml env.fileLoad env.pluginXml).1 = 1 →
     (load_extraxml env.fileLoad env.pluginXml).2.1 ≠ [] →
     env.valRet = 1 → ∀ v, env.valXml = some v → v ≠ [] →
     env.get0Ok = true → env.putRet = 1 →
       (startup_extraxml env s).1 = 1 ∧
       (startup_extraxml env s).2.2 =
         [XEv.reset_tmp, XEv.plugin_reset] ++
           (load_extraxml env.fileLoad env.pluginXml).2.2 ++
           [XEv.get_tmp, XEv.static_validate, XEv.get0_tmp, XEv.merge_put,
            XEv.delete_tmp] ∧
       (startup_extraxml env s).2.1.running =
         some (s.running.getD [] ++
           (load_extraxml env.fileLoad env.pluginXml).2.1)) := by
  have hl := load_extraxml_events env.fileLoad env.pluginXml
  refine ⟨?_, ?_, ?_⟩
  · have hv : XEv.plugin_validate ∉ (load_extraxml env.fileLoad env.pluginXml).2.2 := by
      rcases hl with hl | hl <;> simp [hl]
    have hc : XEv.plugin_commit ∉ (load_extraxml env.fileLoad env.pluginXml).2.2 := by
      rcases hl with hl | hl <;> simp [hl]
    unfold startup_extraxml
    split_ifs <;>
      first
        | (unfold extraxml_done; split_ifs <;> simp)
        | exact startup_extraxml_rest_no_tx env _ _ _ _ hv hc
  · intro h1 h2 h3 h4 h5 h6
    rcases hl with hl | hl <;>
      simp [startup_extraxml, startup_extraxml_rest, extraxml_done,
        h1, h2, h3, h4, h5, h6, hl]
  · intro h1 h2 h3 h4 h5 h6 h7 v h8 h9 h10 h11
    rcases hl with hl | hl <;>
      simp [startup_extraxml, startup_extraxml_rest, extraxml_done, db_merge,
        h1, h2, h3, h4, h5, h6, h7, h8, h9, h10, h11, hl]

/-- Witness for `startup_extraxml_merge_spec`: plugin reset content `[5]`,
no `-c` file, running `[9]`; the merge yields running `[9, 5]`. -/
theorem startup_extraxml_merge_spec_witness :
    (startup_extraxml ⟨true, true, [5], none, true, 1, some [5], true, 1, true⟩
      ⟨some [9], none, none⟩).1 = 1 ∧
    (startup_extraxml ⟨true, true, [5], none, true, 1, some [5], true, 1, true⟩
      ⟨some [9], none, none⟩).2.1.running = some [9, 5] := by
  have h := (startup_extraxml_merge_spec
    ⟨true, true, [5], none, true, 1, some [5], true, 1, true⟩
    ⟨some [9], none, none⟩).2.2 rfl rfl rfl rfl rfl (by decide) rfl [5] rfl
    (by decide) rfl rfl
  exact ⟨h.1, by simpa [load_extraxml] using h.2.2⟩

/-! ### clicon_file_dirent and the sorted file list (lib/src/clixon_file.c) -/

/-- Insert `name` into the alphabetically ordered linked list, after
`clicon_file_list_add` (clixon_file.c): if the list is empty make `name` the
first element; if `strcoll(name, first) <= 0` insert at the front; else walk
`while (next != NULL && strcoll(name, next->name) > 0)` and insert after the
iterator.  Collation (`strcoll`) is modelled as the order on `String`. -/
def clicon_file_list_add (l : List String) (name : String) : List String :=
  match l with
  | [] => [name]
  | x :: xs =>
      if name ≤ x then name :: x :: xs
      else x :: clicon_file_list_add xs name

theorem clicon_file_list_add_eq (l : List String) (name : String) :
    clicon_file_list_add l name = l.orderedInsert (· ≤ ·) name := by
  induction l with
  | nil => rfl
  | cons x xs ih => simp [clicon_file_list_add, List.orderedInsert, ih]

/-- A `readdir` entry: file name and `lstat` mode bits. -/
structure Dirent where
  d_name : String
  st_mode : Nat
deriving DecidableEq

/-- The filters of `clicon_file_dirent`: the compiled regexp must match the
name (`regexec`, abstracted as a predicate; `none` = no regexp given) and,
when `type` is non-zero, `type & st_mode` must be non-zero (the `lstat` call
is assumed to succeed for entries of an existing directory). -/
def dirent_match (regexp : Option (String → Bool)) (type : Nat)
    (d : Dirent) : Bool :=
  (match regexp with
   | some re => re d.d_name
   | none => true) &&
  (decide (type = 0) || decide (Nat.land type d.st_mode ≠ 0))

/-- Modelled from the spec: `clicon_file_dirent` — "alphabetically sorted
directory listing filtered by regexp and file-type mask".  The C function in
clixon_file.c is in-progress code with syntactic defects (undeclared
`current`, `null` for `NULL`, `siezof`, `*list->name` precedence), so the
intended semantics is embedded: iterate over the `readdir` entries, keep the
ones passing both filters, insert each name into the result list with
`clicon_file_list_add`, and count them; a missing directory (`ENOENT`)
yields 0 matches.  Returns (retval, file-name list). -/
def clicon_file_dirent (dirExists : Bool) (entries : List Dirent)
    (regexp : Option (String → Bool)) (type : Nat) : Int × List String :=
  if dirExists = false then (0, [])
  else
    let names := (entries.filter (dirent_match regexp type)).map Dirent.d_name
    ((names.length : Int), names.foldl clicon_file_list_add [])

theorem foldl_list_add_perm (l : List String) :
    ∀ acc : List String, (l.foldl clicon_file_list_add acc).Perm (acc ++ l) := by
  induction l with
  | nil => intro acc; simp
  | cons x xs ih =>
      intro acc
      have h1 : (clicon_file_list_add acc x ++ xs).Perm ((x :: acc) ++ xs) := by
        refine List.Perm.append_right xs ?_
        rw [clicon_file_list_add_eq]
        exact List.perm_orderedInsert _ x acc
      have h2 : ((x :: acc) ++ xs).Perm (acc ++ x :: xs) := by
        simpa using List.perm_middle.symm
      exact ((ih (clicon_file_list_add acc x)).trans h1).trans h2

theorem foldl_list_add_sorted (l : List String) :
    ∀ acc : List String, acc.Sorted (· ≤ ·) →
      (l.foldl clicon_file_list_add acc).Sorted (· ≤ ·) := by
  induction l with
  | nil => intro acc h; simpa using h
  | cons x xs ih =>
      intro acc h
      refine ih _ ?_
      rw [clicon_file_list_add_eq]
      exact List.Sorted.orderedInsert x acc h

/-- C7: `clicon_file_dirent` returns the number of directory entries passing
the regexp and file-type filters, and its output list is exactly those
entries' names in collation order — sorted, a permutation of the matching
names, with the count their number — and the output is the same for any
permutation of the directory's iteration order. -/
theorem clicon_file_dirent_spec (entries entries2 : List Dirent)
    (regexp : Option (String → Bool)) (type : Nat)
    (hperm : entries.Perm entries2) :
    (clicon_file_dirent true entries regexp type).1 =
      (((entries.filter (dirent_match regexp type)).map Dirent.d_name).length : Int) ∧
    (clicon_file_dirent true entries regexp type).2.Perm
      ((entries.filter (dirent_match regexp type)).map Dirent.d_name) ∧
    (clicon_file_dirent true entries regexp type).2.Sorted (· ≤ ·) ∧
    clicon_file_dirent true entries2 regexp type =
      clicon_file_dirent true entries regexp type := by
  have hr1 : clicon_file_dirent true entries regexp type =
      ((((entries.filter (dirent_match regexp type)).map Dirent.d_name).length : Int),
       ((entries.filter (dirent_match regexp type)).map Dirent.d_name).foldl
         clicon_file_list_add []) := by
    simp [clicon_file_dirent]
  have hr2 : clicon_file_dirent true entries2 regexp type =
      ((((entries2.filter (dirent_match regexp type)).map Dirent.d_name).length : Int),
       ((entries2.filter (dirent_match regexp type)).map Dirent.d_name).foldl
         clicon_file_list_add []) := by
    simp [clicon_file_dirent]
  have hp1 := foldl_list_add_perm
    ((entries.filter (dirent_match regexp type)).map Dirent.d_name) []
  have hp2 := foldl_list_add_perm
    ((entries2.filter (dirent_match regexp type)).map Dirent.d_name) []
  rw [List.nil_append] at hp1 hp2
  have hs1 := foldl_list_add_sorted
    ((entries.filter (dirent_match regexp type)).map Dirent.d_name) []
    (List.sorted_nil)
  have hs2 := foldl_list_add_sorted
    ((entries2.filter (dirent_match regexp type)).map Dirent.d_name) []
    (List.sorted_nil)
  have hfp : ((entries.filter (dirent_match regexp type)).map Dirent.d_name).Perm
      ((entries2.filter (dirent_match regexp type)).map Dirent.d_name) :=
    (hperm.filter _).map _
  refine ⟨by rw [hr1], by rw [hr1]; exact hp1, by rw [hr1]; exact hs1, ?_⟩
  rw [hr1, hr2]
  have heq : ((entries2.filter (dirent_match regexp type)).map Dirent.d_name).foldl
      clicon_file_list_add [] =
      ((entries.filter (dirent_match regexp type)).map Dirent.d_name).foldl
        clicon_file_list_add [] :=
    List.eq_of_perm_of_sorted (hp2.trans (hfp.symm.trans hp1.symm)) hs2 hs1
  rw [heq, hfp.length_eq]

/-- Witness for `clicon_file_dirent_spec`: two entries yielded in the order
"b","a" give the sorted list, identical to the one for the order "a","b". -/
theorem clicon_file_dirent_spec_witness :
    (clicon_file_dirent true [⟨"b", 1⟩, ⟨"a", 1⟩] none 0).2.Sorted (· ≤ ·) ∧
    clicon_file_dirent true [⟨"a", 1⟩, ⟨"b", 1⟩] none 0 =
      clicon_file_dirent true [⟨"b", 1⟩, ⟨"a", 1⟩] none 0 := by
  have h := clicon_file_dirent_spec [⟨"b", 1⟩, ⟨"a", 1⟩] [⟨"a", 1⟩, ⟨"b", 1⟩]
    none 0 (by decide)
  exact ⟨h.2.2.1, h.2.2.2⟩

/-! ### restconf error replies (apps/restconf/restconf_err.c, restconf_main.c) -/

/-- A well-formed `<rpc-error>` as `api_return_err` sees it: its `error-tag`
body and its optional `error-message` body. -/
structure RpcErr where
  tag : String
  msg : Option String
deriving DecidableEq

/-- Modelled from the spec: `netconf_operation_not_supported_xml`
(clixon_netconf_lib.c, not under src/) builds an `<rpc-error>` with
error-tag `operation-not-supported` and the given error-message. -/
def netconf_operation_not_supported_xml (msg : String) : RpcErr :=
  ⟨"operation-not-supported", some msg⟩

/-- Modelled from the spec: `netconf_access_denied_xml` (clixon_netconf_lib.c,
not under src/) builds an `<rpc-error>` with error-tag `access-denied` and
the given error-message. -/
def netconf_access_denied_xml (msg : String) : RpcErr :=
  ⟨"access-denied", some msg⟩

/-- Modelled from the spec: `restconf_err2code` (restconf_lib.c, not under
src/), the §6 netconf-error-tag to HTTP status mapping: 400 invalid-value,
403 access-denied, 404 not-found (data-missing), 405 method-not-allowed
(operation-not-supported), 409 in-use/data-exists, 412 lock-denied,
500 operation-failed; unknown tags give -1. -/
def restconf_err2code (tag : String) : Int :=
  if tag = "invalid-value" then 400
  else if tag = "access-denied" then 403
  else if tag = "data-missing" then 404
  else if tag = "operation-not-supported" then 405
  else if tag = "in-use" then 409
  else if tag = "data-exists" then 409
  else if tag = "lock-denied" then 412
  else if tag = "operation-failed" then 500
  else -1

/-- The status-code computation of `api_return_err` (restconf_err.c): if
`code0 != 0` use it as-is; otherwise map the error-tag (unknown → 500), and
when the mapped code is 403 and the `error-message` body is exactly
"The requested URL was unauthorized", report 401 instead (failed
authentication vs. authorization). -/
def api_return_err_code (xerr : RpcErr) (code0 : Int) : Int :=
  if code0 ≠ 0 then code0
  else
    let c := restconf_err2code xerr.tag
    let c2 := if c < 0 then 500 else c
    if c2 = 403 then
      match xerr.msg with
      | some mb => if mb = "The requested URL was unauthorized" then 401 else c2
      | none => c2
    else c2

/-- `api_return_err` ends in a single `restconf_reply_send(req, code, cb)`:
exactly one HTTP reply, carrying the computed status code. -/
def api_return_err_sends (xerr : RpcErr) (code0 : Int) : List Int :=
  [api_return_err_code xerr code0]

/-- `restconf_not_acceptable` (restconf_err.c): builds an
operation-not-supported error, calls `api_return_err0` with the hard-coded
code 415 (one reply via `api_return_err`), and then additionally calls
`restconf_reply_send(req, 415, NULL)` — a second reply.  Returns the list of
status codes of the replies sent. -/
def restconf_not_acceptable_sends : List Int :=
  api_return_err_sends
    (netconf_operation_not_supported_xml "Unacceptable output encoding") 415 ++
  [415]

/-- C8 (code bug evidence): on a request with an unsupported output encoding
the code sends two HTTP replies, both with status 415 — not exactly one
reply with status 406 as RFC 8040 §5.2 (quoted in the function's own
comment) and the spec require. -/
theorem restconf_not_acceptable_two_replies :
    restconf_not_acceptable_sends = [415, 415] := by
  rfl

/-- `api_restconf` (restconf_main.c), unauthenticated branch: when
`clixon_plugin_auth` rejects, build
`netconf_access_denied_xml(&xret, "protocol", "The requested URL was
unauthorized")` and send it through `api_return_err` with code 0
(tag-mapped). -/
def api_restconf_unauth_sends : List Int :=
  api_return_err_sends
    (netconf_access_denied_xml "The requested URL was unauthorized") 0

/-- C10: in tag-mapped mode (code 0), for any error whose tag maps to 403,
the reply status is 401 exactly when the error-message body is the literal
"The requested URL was unauthorized" (and 403 for every other message); the
unauthenticated path of `api_restconf` produces precisely that message, so
it surfaces as 401. -/
theorem api_return_err_401_iff :
    (∀ (tag : String) (msg : Option String), restconf_err2code tag = 403 →
      ((api_return_err_code ⟨tag, msg⟩ 0 = 401 ↔
        msg = some "The requested URL was unauthorized") ∧
       (msg ≠ some "The requested URL was unauthorized" →
        api_return_err_code ⟨tag, msg⟩ 0 = 403))) ∧
    api_restconf_unauth_sends = [401] := by
  constructor
  · intro tag msg h
    constructor
    · constructor
      · intro hc
        simp only [api_return_err_code, h] at hc
        rcases msg with _ | m
        · simp at hc
        · by_cases hm : m = "The requested URL was unauthorized"
          · simp [hm]
          · simp [hm] at hc
      · intro hm
        subst hm
        simp [api_return_err_code, h]
    · intro hm
      simp only [api_return_err_code, h]
      rcases msg with _ | m
      · simp
      · have hm2 : ¬m = "The requested URL was unauthorized" := by
          intro he; exact hm (by rw [he])
        simp [hm2]
  · rfl

/-- Witness for `api_return_err_401_iff`: the tag `access-denied` maps to
403, and a different message keeps status 403. -/
theorem api_return_err_401_iff_witness :
    api_return_err_code ⟨"access-denied", some "no permission"⟩ 0 = 403 :=
  ((api_return_err_401_iff.1 "access-denied" (some "no permission")
    (by decide)).2 (by decide))

/-! ### clicon_rpc_get_config (lib/src/clixon_proto_client.c) -/

/-- A cut-down XML node: element name and children. -/
inductive Cx where
  | mk (name : String) (children : List Cx)

/-- Oracle for one `get-config` round trip: the allocation/encode/send
outcomes, whether the reply holds an `<rpc-error>`, and the `//data/config`
subtree of the reply if present. -/
structure GetEnv where
  cbufOk : Bool
  encodeOk : Bool
  rpcOk : Bool
  rpcError : Bool
  dataConfig : Option Cx

/-- `clicon_rpc_get_config` (clixon_proto_client.c): build the `<get-config>`
rpc, send it, fail on any `<rpc-error>` in the reply; otherwise take the
`//data/config` subtree, or — when it is absent — a freshly created empty
`<config>` element (`xml_new("config", NULL)`).  `none` models retval -1;
`some t` models retval 0 with `*xt = t`. -/
def clicon_rpc_get_config (env : GetEnv) : Option Cx :=
  if env.cbufOk = false then none
  else if env.encodeOk = false then none
  else if env.rpcOk = false then none
  else if env.rpcError then none
  else
    match env.dataConfig with
    | some xd => some xd
    | none => some (Cx.mk "config" [])

/-- C9: a successful `clicon_rpc_get_config` always hands back a tree, never
null: the `//data/config` subtree when the reply has one, and a fresh empty
`<config>` tree when the reply has no data/config subtree. -/
theorem clicon_rpc_get_config_total (env : GetEnv)
    (h1 : env.cbufOk = true) (h2 : env.encodeOk = true)
    (h3 : env.rpcOk = true) (h4 : env.rpcError = false) :
    (env.dataConfig = none →
      clicon_rpc_get_config env = some (Cx.mk "config" [])) ∧
    (∀ d, env.dataConfig = some d → clicon_rpc_get_config env = some d) ∧
    (clicon_rpc_get_config env).isSome = true := by
  refine ⟨?_, ?_, ?_⟩
  · intro hd; simp [clicon_rpc_get_config, h1, h2, h3, h4, hd]
  · intro d hd; simp [clicon_rpc_get_config, h1, h2, h3, h4, hd]
  · rcases hd : env.dataConfig with _ | d <;>
      simp [clicon_rpc_get_config, h1, h2, h3, h4, hd]

/-- Witness for `clicon_rpc_get_config_total`: a successful reply with no
data/config subtree yields the fresh empty config tree. -/
theorem clicon_rpc_get_config_total_witness :
    clicon_rpc_get_config ⟨true, true, true, false, none⟩ =
      some (Cx.mk "config" []) :=
  (clicon_rpc_get_config_total ⟨true, true, true, false, none⟩
    rfl rfl rfl rfl).1 rfl

end Clixon
